import Mathlib

/-!
Shallow embedding of `src/ofxstatement/plugins/iso20022.py` (ofxstatement-iso20022).

XML trees are modelled by records holding the results of the fixed set of
`find`/`findall`/`get` queries the parser performs: a `find` result is
`Option (Option String)` (outer layer: element found; inner layer: its text,
which ElementTree reports as `None` for empty elements), an attribute lookup
(`Element.get`) is `Option String`, and `findall` is a list.  Python's
`Decimal` values are embedded as `Rat` (exact), `datetime.datetime` as a
record of numeric fields, and every function that can raise returns
`Except Err _`.
-/

set_option maxRecDepth 16000

deriving instance DecidableEq for Except

namespace Iso20022

/-- The exceptions the parser can raise: `ofxstatement.exceptions.ParseError`
(with line number and message), `AssertionError` from `assert` statements,
`KeyError` from `dict[...]` on a missing key, `ValueError` from
`str.split` tuple unpacking and `strptime`, and `decimal.InvalidOperation`
from `Decimal(...)` on a malformed literal. -/
inductive Err where
  | parseError : Nat → String → Err
  | assertionError : Err
  | keyError : String → Err
  | valueError : Err
  | invalidOperation : Err
deriving DecidableEq

/-- Python `datetime.datetime` restricted to the fields the parser produces. -/
structure DateTime where
  year : Nat
  month : Nat
  day : Nat
  hour : Nat := 0
  minute : Nat := 0
  second : Nat := 0
deriving DecidableEq

/-- An `Amt` element: its text and its `Ccy` attribute (`Element.get "Ccy"`). -/
structure AmtNode where
  text : Option String := none
  ccy : Option String := none
deriving DecidableEq

/-- A date container element (`Dt`/`ValDt`/`BookgDt`): results of finding the
`Dt` and `DtTm` children (element presence, then text). -/
structure DateNode where
  dt : Option (Option String) := none
  dttm : Option (Option String) := none
deriving DecidableEq

/-- One `Bal` element: the `Tp/CdOrPrtry/Cd` text (behind element presence),
the `Amt` node and the `Dt` node. -/
structure BalanceEl where
  cd : Option (Option String) := none
  amt : Option AmtNode := none
  dt : Option DateNode := none
deriving DecidableEq

/-- One `Ntry` element: results of the queries `_parse_line` performs. -/
structure EntryEl where
  cdtDbtInd : Option (Option String) := none
  amt : Option AmtNode := none
  cdtrNm : Option (Option String) := none
  dbtrNm : Option (Option String) := none
  valDt : Option DateNode := none
  bookgDt : Option DateNode := none
  txSvcrRef : Option (Option String) := none
  acctSvcrRef : Option (Option String) := none
  cdtrRefInfRef : Option (Option String) := none
  ustrd : Option (Option String) := none
  addtlNtryInf : Option (Option String) := none
deriving DecidableEq

/-- The statement/report element (`Stmt` or `Rpt`): results of the queries
`_parse_statement_properties` and `_parse_lines` perform.  `ibanAcct` is the
primary path `Acct/Id/IBAN`; `ibanRltd` is the alternate path
`Ntry/NtryDtls/TxDtls/RltdPties/CdtrAcct/Id/IBAN`. -/
structure StmtEl where
  bic : Option (Option String) := none
  nm : Option (Option String) := none
  ccy : Option (Option String) := none
  bals : List BalanceEl := []
  ibanAcct : Option (Option String) := none
  ibanRltd : Option (Option String) := none
  entries : List EntryEl := []
deriving DecidableEq

/-- A parsed document: its root namespace string (the result of
`_get_namespace` on the root element) and the optional statement and report
elements found at `BkToCstmrStmt/Stmt` and `BkToCstmrAcctRpt/Rpt`. -/
structure Doc where
  ns : String
  bkToCstmrStmt : Option StmtEl := none
  bkToCstmrAcctRpt : Option StmtEl := none
deriving DecidableEq

/-- `ofxstatement.statement.StatementLine`, the fields `_parse_line` sets. -/
structure StatementLine where
  payee : Option String := none
  amount : Option Rat := none
  date : Option DateTime := none
  date_user : Option DateTime := none
  refnum : Option String := none
  memo : Option String := none
deriving DecidableEq

/-- `ofxstatement.statement.Statement`, the fields the parser sets. -/
structure Statement where
  currency : Option String := none
  bank_id : Option String := none
  account_id : Option String := none
  start_balance : Option Rat := none
  start_date : Option DateTime := none
  end_balance : Option Rat := none
  end_date : Option DateTime := none
  lines : List StatementLine := []
deriving DecidableEq

/-- The `CamtVersion` enum. -/
inductive CamtVersion where
  | CAMT052
  | CAMT053
deriving DecidableEq

/-- `CAMT052_NAMESPACE_ROOT`. -/
def CAMT052_NAMESPACE_ROOT : String := "urn:iso:std:iso:20022:tech:xsd:camt.052"

/-- `CAMT053_NAMESPACE_ROOT`. -/
def CAMT053_NAMESPACE_ROOT : String := "urn:iso:std:iso:20022:tech:xsd:camt.053"

/-- `CD_DEBIT`. -/
def CD_DEBIT : String := "DBIT"

/-- `CD_CREDIT`. -/
def CD_CREDIT : String := "CRDT"

/-- Python truthiness of an `Optional[str]`: `None` and `""` are falsy. -/
def truthy : Option String → Bool
  | none => false
  | some s => !(s == "")

/-- `x.text if x is not None else None` for a `find` result. -/
def nodeText (x : Option (Option String)) : Option String := x.join

/-- Python `ns.startswith(root)`, character-list level. -/
def strStartsWith (ns root : String) : Bool := root.data.isPrefixOf ns.data

/-- `_recognize_version`: iterate the `CamtVersion` enum in definition order
(CAMT052, then CAMT053) and return the first member whose value starts the
namespace string; otherwise raise `ParseError(0, ...)`. -/
def recognize_version (ns : String) : Except Err CamtVersion :=
  if strStartsWith ns CAMT052_NAMESPACE_ROOT then .ok .CAMT052
  else if strStartsWith ns CAMT053_NAMESPACE_ROOT then .ok .CAMT053
  else .error (.parseError 0 "Cannot recognize ISO20022 XML")

/-- `_get_statement_el`: the version selects which root path is queried
(`BkToCstmrStmt/Stmt` for CAMT053, `BkToCstmrAcctRpt/Rpt` for CAMT052);
`assert stmt is not None`. -/
def get_statement_el (ver : CamtVersion) (doc : Doc) : Except Err StmtEl :=
  match ver with
  | .CAMT053 =>
    match doc.bkToCstmrStmt with
    | some s => .ok s
    | none => .error .assertionError
  | .CAMT052 =>
    match doc.bkToCstmrAcctRpt with
    | some s => .ok s
    | none => .error .assertionError

/-- Python `str.split` on a single separator character, char-list level. -/
def splitChar (sep : Char) : List Char → List (List Char)
  | [] => [[]]
  | c :: rest =>
    if c = sep then [] :: splitChar sep rest
    else
      match splitChar sep rest with
      | [] => [[c]]
      | p :: ps => (c :: p) :: ps

/-- `_notimezone`: if the text has no `+`, return it unchanged; otherwise
`dt, tz = dt.split("+")` (a `ValueError` unless the split yields exactly two
parts) and return the part before the `+`. -/
def notimezone (s : String) : Except Err String :=
  if s.data.contains '+' = false then .ok s
  else
    match splitChar '+' s.data with
    | [a, _] => .ok (String.mk a)
    | _ => .error .valueError

/-- Base-10 value of a digit-character list (most significant first). -/
def natOfDigits (l : List Char) : Nat :=
  l.foldl (fun a c => 10 * a + (c.toNat - 48)) 0

/-- All characters are ASCII digits. -/
def allDigits (l : List Char) : Bool := l.all Char.isDigit

/-- Gregorian leap-year test, as `datetime` validates dates. -/
def isLeapYear (y : Nat) : Bool := (y % 4 == 0 && y % 100 != 0) || y % 400 == 0

/-- Day count of a month, as `datetime` validates dates. -/
def daysInMonth (y m : Nat) : Nat :=
  if m = 2 then (if isLeapYear y then 29 else 28)
  else if m = 4 ∨ m = 6 ∨ m = 9 ∨ m = 11 then 30
  else 31

/-- Validate and assemble the `%Y-%m-%d` fields scanned by
`datetime.strptime`: a 4-digit year, a 1-2 digit month in 1..12, a 1-2 digit
day valid for that month; any violation raises `ValueError`. -/
def parseYmdParts (ys ms ds : List Char) : Except Err DateTime :=
  if allDigits ys && allDigits ms && allDigits ds
      && (ys.length == 4) && (1 ≤ ms.length) && (ms.length ≤ 2)
      && (1 ≤ ds.length) && (ds.length ≤ 2) then
    let y := natOfDigits ys
    let m := natOfDigits ms
    let d := natOfDigits ds
    if (1 ≤ m) && (m ≤ 12) && (1 ≤ d) && (d ≤ daysInMonth y m) then
      .ok { year := y, month := m, day := d }
    else .error .valueError
  else .error .valueError

/-- `datetime.strptime(value, "%Y-%m-%d")`. -/
def strptimeYmd (s : String) : Except Err DateTime :=
  match splitChar '-' s.data with
  | [ys, ms, ds] => parseYmdParts ys ms ds
  | _ => .error .valueError

/-- `datetime.strptime(value, "%Y-%m-%dT%H:%M:%S")`. -/
def strptimeYmdHms (s : String) : Except Err DateTime :=
  match splitChar 'T' s.data with
  | [ds, ts] =>
    match splitChar ':' ts with
    | [hs, mins, ss] =>
      if allDigits hs && allDigits mins && allDigits ss
          && (1 ≤ hs.length) && (hs.length ≤ 2)
          && (1 ≤ mins.length) && (mins.length ≤ 2)
          && (1 ≤ ss.length) && (ss.length ≤ 2) then
        let h := natOfDigits hs
        let mi := natOfDigits mins
        let sec := natOfDigits ss
        match strptimeYmd (String.mk ds) with
        | .ok d =>
          if (h ≤ 23) && (mi ≤ 59) && (sec ≤ 61) then
            .ok { d with hour := h, minute := mi, second := sec }
          else .error .valueError
        | .error e => .error e
      else .error .valueError
    | _ => .error .valueError
  | _ => .error .valueError

/-- `_parse_date`: `None` container yields `None`; prefer the `Dt` child when
it exists with text, else require the `DtTm` child (an `assert`); both texts
pass through `_notimezone` and then `strptime` with the matching format. -/
def parse_date (dtnode : Option DateNode) : Except Err (Option DateTime) :=
  match dtnode with
  | none => .ok none
  | some node =>
    match node.dt with
    | some (some t) =>
      match notimezone t with
      | .ok v =>
        match strptimeYmd v with
        | .ok d => .ok (some d)
        | .error e => .error e
      | .error e => .error e
    | _ =>
      match node.dttm with
      | some (some t) =>
        match notimezone t with
        | .ok v =>
          match strptimeYmdHms v with
          | .ok d => .ok (some d)
          | .error e => .error e
        | .error e => .error e
      | _ => .error .assertionError

/-- Split a leading run of digits from a character list. -/
def takeDigits : List Char → List Char × List Char
  | [] => ([], [])
  | c :: rest =>
    if c.isDigit then
      let (d, r) := takeDigits rest
      (c :: d, r)
    else ([], c :: rest)

/-- Value of an unsigned decimal numeral `digits [. digits]` as an exact
rational; `none` on any other shape.  The value of `i.f` is the single
fraction `(digits of i followed by digits of f) / 10 ^ (length of f)`. -/
def parseUnsigned (l : List Char) : Option Rat :=
  let p := takeDigits l
  match p.2 with
  | [] => if p.1.isEmpty then none else some (mkRat (natOfDigits p.1) 1)
  | c :: rest2 =>
    if c = '.' then
      let q := takeDigits rest2
      if !q.2.isEmpty then none
      else if p.1.isEmpty && q.1.isEmpty then none
      else some (mkRat (natOfDigits (p.1 ++ q.1)) (10 ^ q.1.length))
    else none

/-- Models `decimal.Decimal(text)` on the plain decimal numerals appearing in
CAMT amount fields: optional sign, digits, optional point and fraction digits;
the value is exact (no floating point).  Malformed text yields `none`
(`decimal.InvalidOperation` at the call site). -/
def parseDecimal (s : String) : Option Rat :=
  match s.data with
  | [] => none
  | c :: rest =>
    if c = '-' then (parseUnsigned rest).map (fun q => -q)
    else if c = '+' then parseUnsigned rest
    else parseUnsigned (c :: rest)

/-- `_parse_amount`: `assert amtnode.text is not None; return Decimal(amtnode.text)`. -/
def parse_amount (a : AmtNode) : Except Err Rat :=
  match a.text with
  | none => .error .assertionError
  | some t =>
    match parseDecimal t with
    | some q => .ok q
    | none => .error .invalidOperation

/-- `_findstrict`: raise `ParseError` when the `find` result is `None`. -/
def findstrict {α : Type} (x : Option α) (spath : String) : Except Err α :=
  match x with
  | some v => .ok v
  | none => .error (.parseError 0 (spath ++ " is not found in the entry element"))

/-- An apostrophe character as a string (used by the balance error message). -/
def squote : String := (Char.ofNat 39).toString

/-- The `ParseError` message for a missing account currency. -/
def currencyErrMsg : String :=
  "No account currency provided in statement. Please specify one in configuration file (e.g. currency=EUR)"

/-- The `ParseError` message for a missing IBAN. -/
def ibanErrMsg : String :=
  "No iban found in the statement. Please specify one in the configuration file (e.g. iban=CH...)"

/-- Python string rendering of an `Optional[str]` under `%s` formatting. -/
def fmtOptStr : Option String → String
  | some s => s
  | none => "None"

/-- The `ParseError` message raised when no balance survives the currency
filter; it embeds the statement currency between apostrophes. -/
def noBalanceMsg (ccy : Option String) : String :=
  "No statement balance found for currency " ++ squote ++ fmtOptStr ccy ++ squote
    ++ ". Check currency of statement file."

/-- The servicer lookup: `find BIC`, falling back to `find Nm` when the BIC
element is absent (fallback on the element, not on its text). -/
def bnkOf (stmt : StmtEl) : Option (Option String) :=
  match stmt.bic with
  | some b => some b
  | none => stmt.nm

/-- The IBAN lookup: `find Acct/Id/IBAN`, falling back to the related-party
creditor-account path when the primary element is absent. -/
def ibanFindOf (stmt : StmtEl) : Option (Option String) :=
  match stmt.ibanAcct with
  | some x => some x
  | none => stmt.ibanRltd

/-- `acctCurrency = ccy.text if ccy is not None else None`. -/
def acctCurrencyOf (stmt : StmtEl) : Option String := nodeText stmt.ccy

/-- `acctIban = ibanfind.text if ibanfind is not None else None`. -/
def acctIbanOf (stmt : StmtEl) : Option String := nodeText (ibanFindOf stmt)

/-- The currency-resolution block: a truthy document currency overwrites the
statement currency; otherwise a still-`None` statement currency raises. -/
def resolve_currency (st : Statement) (acctCurrency : Option String) : Except Err Statement :=
  if truthy acctCurrency then .ok { st with currency := acctCurrency }
  else if st.currency = none then .error (.parseError 0 currencyErrMsg)
  else .ok st

/-- The account-id resolution block: a truthy document IBAN overwrites the
statement account id; otherwise a still-`None` account id raises. -/
def resolve_account_id (st : Statement) (acctIban : Option String) : Except Err Statement :=
  if truthy acctIban then .ok { st with account_id := acctIban }
  else if st.account_id = none then .error (.parseError 0 ibanErrMsg)
  else .ok st

/-- Association-list lookup for the balance dictionaries keyed by
`cd.text : Optional[str]`; the head of the list is the most recent insert, so
a first-match lookup realizes Python dict overwrite semantics. -/
def dget {α : Type} (k : String) : List (Option String × α) → Option α
  | [] => none
  | (k2, v) :: rest => if k2 = some k then some v else dget k rest

/-- `dict[k]`: `KeyError` on a missing key. -/
def dict_getitem {α : Type} (m : List (Option String × α)) (k : String) : Except Err α :=
  match dget k m with
  | some v => .ok v
  | none => .error (.keyError k)

/-- The balance-collection loop: for each `Bal`, assert the `Cd` and `Amt`
elements exist, skip it when the `Ccy` attribute differs from the statement
currency, else parse amount and date and insert them keyed by the code text
(new inserts are consed at the head). -/
def collect_bals (ccy : Option String)
    (acc : List (Option String × Rat) × List (Option String × Option DateTime)) :
    List BalanceEl → Except Err (List (Option String × Rat) × List (Option String × Option DateTime))
  | [] => .ok acc
  | bal :: rest =>
    match bal.cd, bal.amt with
    | none, _ => .error .assertionError
    | some _, none => .error .assertionError
    | some cdText, some amt =>
      if amt.ccy ≠ ccy then collect_bals ccy acc rest
      else
        match parse_amount amt with
        | .error e => .error e
        | .ok a =>
          match parse_date bal.dt with
          | .error e => .error e
          | .ok d => collect_bals ccy ((cdText, a) :: acc.1, (cdText, d) :: acc.2) rest

/-- `_parse_statement_properties`, faithful to the statement order of the
source: locate the statement element, run the element lookups, resolve
currency then account id (each may raise), collect the currency-filtered
balance dictionaries, raise when they are empty, set `bank_id`, re-set
`account_id` (keeping the previous value only when the document IBAN text is
`None`), then set start/end balances and dates (the `CLBD` subscripts may
raise `KeyError`). -/
def parse_statement_properties (ver : CamtVersion) (doc : Doc) (st : Statement) :
    Except Err Statement :=
  match get_statement_el ver doc with
  | .error e => .error e
  | .ok stmt =>
    let bnk := bnkOf stmt
    let acctCurrency := acctCurrencyOf stmt
    match resolve_currency st acctCurrency with
    | .error e => .error e
    | .ok st1 =>
      let acctIban := acctIbanOf stmt
      match resolve_account_id st1 acctIban with
      | .error e => .error e
      | .ok st2 =>
        match collect_bals st2.currency ([], []) stmt.bals with
        | .error e => .error e
        | .ok maps =>
          if maps.1.isEmpty then
            .error (.parseError 0 (noBalanceMsg st2.currency))
          else
            let st3 := { st2 with bank_id := nodeText bnk }
            let st4 := { st3 with
              account_id := match acctIban with
                | some v => some v
                | none => st3.account_id }
            let startBal : Option Rat :=
              match dget "OPBD" maps.1 with
              | some v => some v
              | none => dget "PRCD" maps.1
            let startDate : Option DateTime :=
              match dget "OPBD" maps.2 with
              | some v => v
              | none =>
                match dget "PRCD" maps.2 with
                | some v => v
                | none => none
            match dict_getitem maps.1 "CLBD" with
            | .error e => .error e
            | .ok eb =>
              match dict_getitem maps.2 "CLBD" with
              | .error e => .error e
              | .ok ed =>
                .ok { st4 with
                  start_balance := startBal
                  start_date := startDate
                  end_balance := some eb
                  end_date := ed }

/-- `_parse_line`: read the mandatory indicator and amount (strict finds),
drop the entry when the amount currency attribute differs from the statement
currency, negate debits and pick the counterparty name path, parse the two
dates, resolve the reference number and memo through their fallback chains. -/
def parse_line (st : Statement) (ntry : EntryEl) : Except Err (Option StatementLine) :=
  match findstrict ntry.cdtDbtInd "CdtDbtInd" with
  | .error e => .error e
  | .ok crdeb =>
    match findstrict ntry.amt "Amt" with
    | .error e => .error e
    | .ok amtnode =>
      if amtnode.ccy ≠ st.currency then
        .ok none
      else
        match parse_amount amtnode with
        | .error e => .error e
        | .ok amt =>
          let amt2 := if crdeb = some CD_DEBIT then -amt else amt
          let payee := if crdeb = some CD_DEBIT then ntry.cdtrNm else ntry.dbtrNm
          match parse_date ntry.valDt with
          | .error e => .error e
          | .ok date =>
            match parse_date ntry.bookgDt with
            | .error e => .error e
            | .ok date_user =>
              let svcref : Option (Option String) :=
                match ntry.txSvcrRef with
                | some v => some v
                | none => ntry.acctSvcrRef
              let memo : Option String :=
                match ntry.cdtrRefInfRef with
                | some r => r
                | none =>
                  match ntry.ustrd with
                  | some r => r
                  | none =>
                    match ntry.addtlNtryInf with
                    | some r => r
                    | none => none
              .ok (some { payee := nodeText payee, amount := some amt2, date := date,
                          date_user := date_user, refnum := svcref.join, memo := memo })

/-- `_parse_lines`: iterate the entries in document order, appending each
produced line; an exception aborts the whole parse. -/
def parse_lines (st : Statement) : List EntryEl → Except Err (List StatementLine)
  | [] => .ok []
  | e :: rest =>
    match parse_line st e with
    | .error er => .error er
    | .ok l =>
      match parse_lines st rest with
      | .error er => .error er
      | .ok ls =>
        match l with
        | some l2 => .ok (l2 :: ls)
        | none => .ok ls

/-- The statement object as `parse` initializes it from the parser's
configured defaults. -/
def initStatement (currency iban : Option String) : Statement :=
  { currency := currency, account_id := iban }

/-- `Iso20022Parser.parse`: initialize the statement with the configured
defaults, recognize the namespace, extract the statement properties, then the
lines.  (Reading the file and extracting the namespace string from the root
tag are elided: `Doc.ns` is the namespace.) -/
def parse (currency iban : Option String) (doc : Doc) : Except Err Statement :=
  let st0 := initStatement currency iban
  match recognize_version doc.ns with
  | .error e => .error e
  | .ok ver =>
    match parse_statement_properties ver doc st0 with
    | .error e => .error e
    | .ok st1 =>
      match get_statement_el ver doc with
      | .error e => .error e
      | .ok stmt =>
        match parse_lines st1 stmt.entries with
        | .error e => .error e
        | .ok ls => .ok { st1 with lines := st1.lines ++ ls }

/-! ## Lemmas about the timezone-stripping split -/

theorem splitChar_nil (sep : Char) : splitChar sep [] = [[]] := rfl

theorem splitChar_ne_nil (sep : Char) (l : List Char) : splitChar sep l ≠ [] := by
  induction l with
  | nil => simp [splitChar]
  | cons c rest ih =>
    simp only [splitChar]
    split
    · simp
    · split
      · simp
      · simp

theorem splitChar_not_mem (sep : Char) (l : List Char) (h : sep ∉ l) :
    splitChar sep l = [l] := by
  induction l with
  | nil => rfl
  | cons c rest ih =>
    have hc : ¬ c = sep := fun hcs => h (hcs ▸ List.mem_cons_self c rest)
    have hrest : sep ∉ rest := fun hm => h (List.mem_cons_of_mem c hm)
    simp only [splitChar, if_neg hc, ih hrest]

theorem splitChar_append (sep : Char) (la lb : List Char) (h : sep ∉ la) :
    splitChar sep (la ++ sep :: lb) = la :: splitChar sep lb := by
  induction la with
  | nil => simp [splitChar]
  | cons c rest ih =>
    have hc : ¬ c = sep := fun hcs => h (hcs ▸ List.mem_cons_self c rest)
    have hrest : sep ∉ rest := fun hm => h (List.mem_cons_of_mem c hm)
    simp only [List.cons_append, splitChar, if_neg hc, List.append_eq, ih hrest]

theorem splitChar_head_not_mem (sep : Char) (l a : List Char) (rest : List (List Char))
    (h : splitChar sep l = a :: rest) : sep ∉ a := by
  induction l generalizing a rest with
  | nil =>
    simp only [splitChar] at h
    cases h
    simp
  | cons c tl ih =>
    simp only [splitChar] at h
    by_cases hc : c = sep
    · rw [if_pos hc] at h
      cases h
      simp
    · rw [if_neg hc] at h
      cases hs : splitChar sep tl with
      | nil => exact absurd hs (splitChar_ne_nil sep tl)
      | cons p ps =>
        rw [hs] at h
        injection h with h1 h2
        subst h1
        intro hm
        rcases List.mem_cons.mp hm with hx | hx
        · exact hc hx.symm
        · exact ih p ps hs hx

theorem contains_eq_false_iff (l : List Char) (c : Char) : l.contains c = false ↔ c ∉ l := by
  simp [List.contains]

theorem notimezone_of_not_mem (s : String) (h : '+' ∉ s.data) : notimezone s = .ok s := by
  rw [notimezone, if_pos ((contains_eq_false_iff s.data '+').mpr h)]

/-- C3 (amended): the timezone-stripping step returns the text unchanged when
it contains no "+", returns the text truncated at the first "+" when it
contains exactly one "+", is idempotent on its own successful outputs, and
makes "2017-04-01+02:00" and "2017-04-01" normalize to the same datetime.
(As stated, the claim fails: a text with two or more "+" characters makes the
two-variable tuple unpacking of `split("+")` raise `ValueError`.) -/
theorem C3_timezone_strip :
    (∀ s : String, '+' ∉ s.data → notimezone s = .ok s) ∧
    (∀ la lb : List Char, '+' ∉ la → '+' ∉ lb →
      notimezone (String.mk (la ++ '+' :: lb)) = .ok (String.mk la)) ∧
    (∀ s r : String, notimezone s = .ok r → notimezone r = .ok r) ∧
    parse_date (some { dt := some (some "2017-04-01+02:00"), dttm := none }) =
      parse_date (some { dt := some (some "2017-04-01"), dttm := none }) := by
  refine ⟨notimezone_of_not_mem, ?_, ?_, by decide⟩
  · intro la lb ha hb
    have hmem : '+' ∈ (String.mk (la ++ '+' :: lb)).data := by
      simp [String.mk]
    have hcond : ¬ ((String.mk (la ++ '+' :: lb)).data.contains '+' = false) := by
      rw [contains_eq_false_iff]
      exact fun hn => hn hmem
    rw [notimezone, if_neg hcond]
    have hdata : (String.mk (la ++ '+' :: lb)).data = la ++ '+' :: lb := rfl
    rw [hdata, splitChar_append '+' la lb ha, splitChar_not_mem '+' lb hb]
  · intro s r h
    rw [notimezone] at h
    by_cases hc : s.data.contains '+' = false
    · rw [if_pos hc] at h
      injection h with h1
      subst h1
      exact notimezone_of_not_mem s ((contains_eq_false_iff s.data '+').mp hc)
    · rw [if_neg hc] at h
      cases hs : splitChar '+' s.data with
      | nil => exact absurd hs (splitChar_ne_nil '+' s.data)
      | cons p ps =>
        rw [hs] at h
        cases ps with
        | nil => simp at h
        | cons q qs =>
          cases qs with
          | nil =>
            simp only at h
            injection h with h1
            subst h1
            exact notimezone_of_not_mem (String.mk p) (splitChar_head_not_mem '+' s.data p [q] hs)
          | cons w ws => simp at h

/-- Witness for C3: instances of the three quantified parts at the spec's
example date texts. -/
theorem C3_timezone_strip_witness :
    notimezone "2017-04-01" = .ok "2017-04-01" ∧
    notimezone (String.mk ("2017-04-01".data ++ '+' :: "02:00".data)) = .ok (String.mk "2017-04-01".data) ∧
    notimezone "2017-04-01" = .ok "2017-04-01" :=
  ⟨C3_timezone_strip.1 "2017-04-01" (by decide),
   C3_timezone_strip.2.1 "2017-04-01".data "02:00".data (by decide) (by decide),
   C3_timezone_strip.2.2.1 "2017-04-01+02:00" "2017-04-01" (by decide)⟩

/-- C3 counterexample: a date text that does contain a "+" on which the
stripping step raises `ValueError` instead of returning the truncation. -/
theorem C3_counterexample :
    ('+' ∈ "2017-04-01+02:00+03:00".data) ∧
    notimezone "2017-04-01+02:00+03:00" = .error .valueError :=
  ⟨by decide, by decide⟩

/-! ## Lemmas about exact decimal parsing -/

theorem takeDigits_all (i : List Char) (hi : allDigits i = true) : takeDigits i = (i, []) := by
  induction i with
  | nil => rfl
  | cons c rest ih =>
    rcases List.all_eq_true.mp hi c (List.mem_cons_self c rest) with hc
    have hrest : allDigits rest = true :=
      List.all_eq_true.mpr fun x hx => List.all_eq_true.mp hi x (List.mem_cons_of_mem c hx)
    simp [takeDigits, hc, ih hrest]

theorem takeDigits_append_not_digit (i : List Char) (c : Char) (r : List Char)
    (hi : allDigits i = true) (hc : c.isDigit = false) :
    takeDigits (i ++ c :: r) = (i, c :: r) := by
  induction i with
  | nil => simp [takeDigits, hc]
  | cons d rest ih =>
    have hd : d.isDigit = true := List.all_eq_true.mp hi d (List.mem_cons_self d rest)
    have hrest : allDigits rest = true :=
      List.all_eq_true.mpr fun x hx => List.all_eq_true.mp hi x (List.mem_cons_of_mem d hx)
    simp [takeDigits, hd, ih hrest]

theorem foldl_digits_shift (f : List Char) (a : Nat) :
    List.foldl (fun a c => 10 * a + (c.toNat - 48)) a f
      = a * 10 ^ f.length + natOfDigits f := by
  induction f generalizing a with
  | nil => simp [natOfDigits]
  | cons c rest ih =>
    rw [List.foldl_cons, ih (10 * a + (c.toNat - 48))]
    have h0 : natOfDigits (c :: rest) = (c.toNat - 48) * 10 ^ rest.length + natOfDigits rest := by
      rw [natOfDigits, List.foldl_cons]
      have h1 := ih (10 * 0 + (c.toNat - 48))
      simpa [natOfDigits] using h1
    rw [h0, List.length_cons]
    ring

theorem natOfDigits_append (i f : List Char) :
    natOfDigits (i ++ f) = natOfDigits i * 10 ^ f.length + natOfDigits f := by
  rw [natOfDigits, List.foldl_append, ← natOfDigits, foldl_digits_shift]

theorem parseUnsigned_frac (i f : List Char)
    (hi : allDigits i = true) (hf : allDigits f = true) (hne : i ≠ [] ∨ f ≠ []) :
    parseUnsigned (i ++ '.' :: f) = some (mkRat (natOfDigits (i ++ f)) (10 ^ f.length)) := by
  have hdot : ('.' : Char).isDigit = false := by decide
  have ht : takeDigits (i ++ '.' :: f) = (i, '.' :: f) :=
    takeDigits_append_not_digit i '.' f hi hdot
  have htf : takeDigits f = (f, []) := takeDigits_all f hf
  have hni : ¬ (i.isEmpty && f.isEmpty) = true := by
    rcases hne with h | h
    · simp [List.isEmpty_iff, h]
    · simp [List.isEmpty_iff, h]
  simp only [parseUnsigned, ht, htf]
  simp [hni]

theorem digit_ne_minus (c : Char) (hc : c.isDigit = true) : ¬ c = '-' := by
  intro h
  subst h
  simp at hc

theorem digit_ne_plus (c : Char) (hc : c.isDigit = true) : ¬ c = '+' := by
  intro h
  subst h
  simp at hc

theorem parseDecimal_frac (i f : List Char)
    (hi : allDigits i = true) (hf : allDigits f = true) (hne : i ≠ [] ∨ f ≠ []) :
    parseDecimal (String.mk (i ++ '.' :: f)) = some (mkRat (natOfDigits (i ++ f)) (10 ^ f.length)) := by
  rw [parseDecimal]
  cases i with
  | nil =>
    simp only [List.nil_append]
    have h1 : ¬ ('.' : Char) = '-' := by decide
    have h2 : ¬ ('.' : Char) = '+' := by decide
    rw [if_neg h1, if_neg h2]
    exact parseUnsigned_frac [] f hi hf hne
  | cons c i2 =>
    have hc : c.isDigit = true := List.all_eq_true.mp hi c (List.mem_cons_self c i2)
    simp only [List.cons_append]
    rw [if_neg (digit_ne_minus c hc), if_neg (digit_ne_plus c hc)]
    exact parseUnsigned_frac (c :: i2) f hi hf hne

theorem mkRat_decimal_val (i f : List Char) :
    (mkRat (natOfDigits (i ++ f)) (10 ^ f.length) : Rat)
      = ((natOfDigits i : Rat) * 10 ^ f.length + natOfDigits f) / 10 ^ f.length := by
  rw [Rat.mkRat_eq_div, natOfDigits_append]
  push_cast
  ring

/-- C9: for every decimal amount text `i.f` or `-i.f` (digit strings `i`, `f`,
not both empty), `_parse_amount` returns the exact rational value
`(i * 10^k + f) / 10^k` (with `k` fraction digits), with no floating-point
drift, for arbitrarily many fractional digits. -/
theorem C9_amount_exact (i f : List Char) (ccy : Option String)
    (hi : allDigits i = true) (hf : allDigits f = true) (hne : i ≠ [] ∨ f ≠ []) :
    parse_amount { text := some (String.mk (i ++ '.' :: f)), ccy := ccy } =
      .ok (((natOfDigits i : Rat) * 10 ^ f.length + natOfDigits f) / 10 ^ f.length) ∧
    parse_amount { text := some (String.mk ('-' :: (i ++ '.' :: f))), ccy := ccy } =
      .ok (-(((natOfDigits i : Rat) * 10 ^ f.length + natOfDigits f) / 10 ^ f.length)) := by
  constructor
  · simp only [parse_amount, parseDecimal_frac i f hi hf hne, mkRat_decimal_val]
  · have hneg : parseDecimal (String.mk ('-' :: (i ++ '.' :: f)))
        = (parseUnsigned (i ++ '.' :: f)).map (fun q => -q) := by
      rw [parseDecimal]
      simp
    simp only [parse_amount, hneg, parseUnsigned_frac i f hi hf hne, Option.map_some,
      Option.map_some', mkRat_decimal_val]

/-- Witness for C9: the text "-0.29" parses to a value exactly equal to
-29/100. -/
theorem C9_amount_exact_witness :
    parse_amount { text := some "-0.29", ccy := none } = .ok (-29/100 : Rat) := by
  have h := (C9_amount_exact ['0'] ['2', '9'] none (by decide) (by decide) (Or.inl (by decide))).2
  have e1 : natOfDigits ['0'] = 0 := by decide
  have e2 : natOfDigits ['2', '9'] = 29 := by decide
  rw [e1, e2] at h
  refine h.trans (congrArg Except.ok ?_)
  norm_num

/-! ## Version recognition -/

theorem camt_roots_disjoint (ns : String)
    (h : strStartsWith ns CAMT053_NAMESPACE_ROOT = true) :
    strStartsWith ns CAMT052_NAMESPACE_ROOT = false := by
  by_contra hc
  have h52 : strStartsWith ns CAMT052_NAMESPACE_ROOT = true := by
    cases h' : strStartsWith ns CAMT052_NAMESPACE_ROOT
    · exact absurd h' hc
    · rfl
  have p53 : CAMT053_NAMESPACE_ROOT.data <+: ns.data :=
    List.isPrefixOf_iff_prefix.mp h
  have p52 : CAMT052_NAMESPACE_ROOT.data <+: ns.data :=
    List.isPrefixOf_iff_prefix.mp h52
  have hlen : CAMT052_NAMESPACE_ROOT.data.length ≤ CAMT053_NAMESPACE_ROOT.data.length := by decide
  have hpp : CAMT052_NAMESPACE_ROOT.data <+: CAMT053_NAMESPACE_ROOT.data :=
    List.prefix_of_prefix_length_le p52 p53 hlen
  have heq : CAMT052_NAMESPACE_ROOT.data = CAMT053_NAMESPACE_ROOT.data :=
    List.IsPrefix.eq_of_length hpp (by decide)
  exact absurd heq (by decide)

/-- C8: a document whose root namespace starts with neither schema-root makes
`parse` raise the unrecognized-format parse error (no statement returned);
when a root matches, the first matching enum member in definition order is
returned, and the recognized version selects the root path queried for the
statement element (`BkToCstmrStmt/Stmt` for camt.053, `BkToCstmrAcctRpt/Rpt`
for camt.052). -/
theorem C8_version_dispatch :
    (∀ c i : Option String, ∀ doc : Doc,
       strStartsWith doc.ns CAMT052_NAMESPACE_ROOT = false →
       strStartsWith doc.ns CAMT053_NAMESPACE_ROOT = false →
       parse c i doc = .error (.parseError 0 "Cannot recognize ISO20022 XML")) ∧
    (∀ ns : String, strStartsWith ns CAMT052_NAMESPACE_ROOT = true →
       recognize_version ns = .ok .CAMT052) ∧
    (∀ ns : String, strStartsWith ns CAMT053_NAMESPACE_ROOT = true →
       recognize_version ns = .ok .CAMT053) ∧
    (∀ doc : Doc, get_statement_el .CAMT053 doc =
       (match doc.bkToCstmrStmt with
        | some s => .ok s
        | none => .error .assertionError)) ∧
    (∀ doc : Doc, get_statement_el .CAMT052 doc =
       (match doc.bkToCstmrAcctRpt with
        | some s => .ok s
        | none => .error .assertionError)) := by
  refine ⟨?_, ?_, ?_, ?_, ?_⟩
  · intro c i doc h52 h53
    simp [parse, recognize_version, h52, h53]
  · intro ns h
    simp [recognize_version, h]
  · intro ns h
    simp [recognize_version, camt_roots_disjoint ns h, h]
  · intro doc
    rfl
  · intro doc
    rfl

/-- Witness for C8: a concrete unrecognized namespace is rejected by `parse`,
and each concrete schema root is recognized as its own version. -/
theorem C8_version_dispatch_witness :
    parse none none { ns := "urn:other" } = .error (.parseError 0 "Cannot recognize ISO20022 XML") ∧
    recognize_version "urn:iso:std:iso:20022:tech:xsd:camt.052.001.02" = .ok .CAMT052 ∧
    recognize_version "urn:iso:std:iso:20022:tech:xsd:camt.053.001.02" = .ok .CAMT053 :=
  ⟨C8_version_dispatch.1 none none { ns := "urn:other" } (by decide) (by decide),
   C8_version_dispatch.2.1 "urn:iso:std:iso:20022:tech:xsd:camt.052.001.02" (by decide),
   C8_version_dispatch.2.2.1 "urn:iso:std:iso:20022:tech:xsd:camt.053.001.02" (by decide)⟩

/-! ## Entry sign handling -/

/-- C2 counterexample: a debit entry whose amount text is "0" (passing the
currency filter) produces an emitted line whose amount is 0, which is not
strictly negative. -/
theorem C2_counterexample :
    parse_line { currency := some "EUR" }
        { cdtDbtInd := some (some "DBIT"),
          amt := some { text := some "0", ccy := some "EUR" } }
      = .ok (some { payee := none, amount := some 0, date := none, date_user := none,
                    refnum := none, memo := none }) ∧
    ¬ ((0 : Rat) < 0) :=
  ⟨by decide, by decide⟩

/-- C2 (amended): for every entry that passes the currency filter and whose
document amount parses to a strictly positive value, a "DBIT" indicator makes
the emitted amount strictly negative and a "CRDT" indicator leaves it strictly
positive.  (As stated, the claim fails for a zero amount text, whose debit
line has amount 0.) -/
theorem C2_sign (st : Statement) (e : EntryEl) (t : Option String) (a : AmtNode)
    (q : Rat) (l : StatementLine)
    (ht : e.cdtDbtInd = some t) (ha : e.amt = some a)
    (hq : parse_amount a = .ok q) (hpos : 0 < q)
    (hok : parse_line st e = .ok (some l)) :
    (t = some CD_DEBIT → l.amount = some (-q) ∧ -q < 0) ∧
    (t = some CD_CREDIT → l.amount = some q ∧ 0 < q) := by
  simp only [parse_line, ht, ha, findstrict, hq] at hok
  by_cases hcc : a.ccy = st.currency
  · rw [if_neg (fun hn => hn hcc)] at hok
    cases hd1 : parse_date e.valDt with
    | error er => rw [hd1] at hok; simp at hok
    | ok d1 =>
      cases hd2 : parse_date e.bookgDt with
      | error er => rw [hd1, hd2] at hok; simp at hok
      | ok d2 =>
        rw [hd1, hd2] at hok
        simp only [Except.ok.injEq, Option.some.injEq] at hok
        constructor
        · intro hdbt
          subst hdbt
          rw [← hok]
          refine ⟨?_, neg_lt_zero.mpr hpos⟩
          simp
        · intro hcrd
          subst hcrd
          rw [← hok]
          have hne2 : ¬ (some CD_CREDIT : Option String) = some CD_DEBIT := by decide
          refine ⟨?_, hpos⟩
          simp [hne2]
  · rw [if_pos hcc] at hok
    simp at hok

/-- Witness for C2: a debit entry with amount text "5" yields emitted amount
-5 < 0. -/
theorem C2_sign_witness :
    ({ amount := some (-(mkRat 5 1)) } : StatementLine).amount = some (-(mkRat 5 1)) ∧
      -(mkRat 5 1) < 0 :=
  (C2_sign { currency := some "EUR" }
    { cdtDbtInd := some (some "DBIT"), amt := some { text := some "5", ccy := some "EUR" } }
    (some "DBIT") { text := some "5", ccy := some "EUR" } (mkRat 5 1)
    { amount := some (-(mkRat 5 1)) }
    rfl rfl (by decide) (by decide) (by decide)).1 rfl

/-- C10: entry classification tests only for "DBIT": an entry whose indicator
text is any value other than "DBIT" is processed exactly as a credit entry —
the same result as with indicator "CRDT": the amount is not negated, the
payee is looked up from the debtor name path, and the indicator value itself
raises no error. -/
theorem C10_non_dbit_as_credit (st : Statement) (e : EntryEl) (t : Option String)
    (ht : e.cdtDbtInd = some t) (hne : t ≠ some CD_DEBIT) :
    parse_line st e = parse_line st { e with cdtDbtInd := some (some CD_CREDIT) } ∧
    (∀ a q l, e.amt = some a → parse_amount a = .ok q → parse_line st e = .ok (some l) →
      l.amount = some q ∧ l.payee = nodeText e.dbtrNm) := by
  have hcrd : ¬ (some CD_CREDIT : Option String) = some CD_DEBIT := by decide
  constructor
  · simp only [parse_line, ht, findstrict, if_neg hne, if_neg hcrd]
  · intro a q l ha hq hok
    simp only [parse_line, ht, ha, findstrict, hq, if_neg hne] at hok
    by_cases hcc : a.ccy = st.currency
    · rw [if_neg (fun hn => hn hcc)] at hok
      cases hd1 : parse_date e.valDt with
      | error er => rw [hd1] at hok; simp at hok
      | ok d1 =>
        cases hd2 : parse_date e.bookgDt with
        | error er => rw [hd1, hd2] at hok; simp at hok
        | ok d2 =>
          rw [hd1, hd2] at hok
          simp only [Except.ok.injEq, Option.some.injEq] at hok
          refine ⟨?_, ?_⟩
          · rw [← hok]
          · rw [← hok]
    · rw [if_pos hcc] at hok
      simp at hok

/-- Witness for C10: an entry with the unexpected indicator "XXXX" is handled
as a credit: amount 7 not negated, payee from the debtor name. -/
theorem C10_non_dbit_as_credit_witness :
    ({ payee := some "Alice", amount := some (mkRat 7 1) } : StatementLine).amount
        = some (mkRat 7 1) ∧
    ({ payee := some "Alice", amount := some (mkRat 7 1) } : StatementLine).payee
        = nodeText (some (some "Alice")) :=
  (C10_non_dbit_as_credit { currency := some "EUR" }
    { cdtDbtInd := some (some "XXXX"),
      amt := some { text := some "7", ccy := some "EUR" },
      dbtrNm := some (some "Alice") }
    (some "XXXX") rfl (by decide)).2
    { text := some "7", ccy := some "EUR" } (mkRat 7 1)
    { payee := some "Alice", amount := some (mkRat 7 1) }
    rfl (by decide) (by decide)

/-! ## Currency filtering of entries -/

/-- C7 counterexample: an entry whose amount currency (USD) differs from the
statement currency (EUR) but which lacks the `CdtDbtInd` element makes
`_parse_line` raise a `ParseError` instead of being dropped silently. -/
theorem C7_counterexample :
    (some "USD" : Option String) ≠ (some "EUR" : Option String) ∧
    parse_line { currency := some "EUR" }
        { cdtDbtInd := none, amt := some { text := some "5", ccy := some "USD" } }
      = .error (.parseError 0 "CdtDbtInd is not found in the entry element") :=
  ⟨by decide, by decide⟩

theorem parse_line_some_of_ccy_eq (st : Statement) (e : EntryEl) (t : Option String)
    (a : AmtNode) (ht : e.cdtDbtInd = some t) (ha : e.amt = some a)
    (hcc : a.ccy = st.currency) (o : Option StatementLine)
    (he : parse_line st e = .ok o) : ∃ l, o = some l := by
  simp only [parse_line, ht, ha, findstrict] at he
  rw [if_neg (fun hn => hn hcc)] at he
  cases hq : parse_amount a with
  | error er => rw [hq] at he; simp at he
  | ok q =>
    rw [hq] at he
    cases hd1 : parse_date e.valDt with
    | error er => rw [hd1] at he; simp at he
    | ok d1 =>
      cases hd2 : parse_date e.bookgDt with
      | error er => rw [hd1, hd2] at he; simp at he
      | ok d2 =>
        rw [hd1, hd2] at he
        simp only [Except.ok.injEq] at he
        exact ⟨_, he.symm⟩

/-- C7 (amended): an entry carrying a credit/debit indicator and an amount
node whose currency attribute differs from the statement currency produces no
line and no error; and for entries all carrying those two mandatory elements,
the emitted lines correspond one-to-one, in document order, to exactly the
entries whose amount currency equals the statement currency.  (As stated, the
claim fails: a mismatched-currency entry lacking `CdtDbtInd` raises.) -/
theorem C7_currency_filter :
    (∀ (st : Statement) (e : EntryEl) (t : Option String) (a : AmtNode),
       e.cdtDbtInd = some t → e.amt = some a → a.ccy ≠ st.currency →
       parse_line st e = .ok none) ∧
    (∀ (st : Statement) (entries : List EntryEl) (lines : List StatementLine),
       (∀ e2 ∈ entries, e2.cdtDbtInd ≠ none ∧ e2.amt ≠ none) →
       parse_lines st entries = .ok lines →
       List.Forall₂ (fun e2 l =>
           (∃ a, e2.amt = some a ∧ a.ccy = st.currency) ∧ parse_line st e2 = .ok (some l))
         (entries.filter (fun e2 =>
           match e2.amt with
           | some a => decide (a.ccy = st.currency)
           | none => false)) lines) := by
  have part1 : ∀ (st : Statement) (e : EntryEl) (t : Option String) (a : AmtNode),
      e.cdtDbtInd = some t → e.amt = some a → a.ccy ≠ st.currency →
      parse_line st e = .ok none := by
    intro st e t a ht ha hcc
    simp only [parse_line, ht, ha, findstrict]
    rw [if_pos hcc]
  refine ⟨part1, ?_⟩
  intro st entries
  induction entries with
  | nil =>
    intro lines _ hok
    simp only [parse_lines] at hok
    injection hok with h1
    subst h1
    simp [List.Forall₂.nil]
  | cons e rest ih =>
    intro lines hwf hok
    obtain ⟨t, ht⟩ := Option.ne_none_iff_exists'.mp (hwf e (List.mem_cons_self e rest)).1
    obtain ⟨a, ha⟩ := Option.ne_none_iff_exists'.mp (hwf e (List.mem_cons_self e rest)).2
    have hwfr : ∀ e2 ∈ rest, e2.cdtDbtInd ≠ none ∧ e2.amt ≠ none :=
      fun e2 he2 => hwf e2 (List.mem_cons_of_mem e he2)
    simp only [parse_lines] at hok
    cases he : parse_line st e with
    | error er => rw [he] at hok; simp at hok
    | ok o =>
      rw [he] at hok
      cases hr : parse_lines st rest with
      | error er => rw [hr] at hok; simp at hok
      | ok ls =>
        rw [hr] at hok
        by_cases hcc : a.ccy = st.currency
        · obtain ⟨l2, hl2⟩ := parse_line_some_of_ccy_eq st e t a ht ha hcc o he
          subst hl2
          simp only [Except.ok.injEq] at hok
          subst hok
          have hpred : (fun e2 =>
              match e2.amt with
              | some a => decide (a.ccy = st.currency)
              | none => false) e = true := by
            simp [ha, hcc]
          rw [List.filter_cons, if_pos hpred]
          exact List.Forall₂.cons ⟨⟨a, ha, hcc⟩, he⟩ (ih ls hwfr hr)
        · have hnone : parse_line st e = .ok none := part1 st e t a ht ha hcc
          rw [he] at hnone
          injection hnone with h2
          subst h2
          simp only [Except.ok.injEq] at hok
          subst hok
          have hpred : (fun e2 =>
              match e2.amt with
              | some a => decide (a.ccy = st.currency)
              | none => false) e = false := by
            simp [ha, hcc]
          rw [List.filter_cons, if_neg (by simp [hpred])]
          exact ih ls hwfr hr

/-- Witness for C7: a two-entry document (one USD entry, one EUR entry) under
statement currency EUR emits exactly the line of the EUR entry. -/
theorem C7_currency_filter_witness :
    List.Forall₂ (fun e2 l =>
        (∃ a, e2.amt = some a ∧ a.ccy = ({ currency := some "EUR" } : Statement).currency) ∧
        parse_line { currency := some "EUR" } e2 = .ok (some l))
      (([{ cdtDbtInd := some (some "CRDT"), amt := some { text := some "5", ccy := some "USD" } },
          { cdtDbtInd := some (some "CRDT"), amt := some { text := some "3", ccy := some "EUR" } }]
          : List EntryEl).filter (fun e2 =>
        match e2.amt with
        | some a => decide (a.ccy = ({ currency := some "EUR" } : Statement).currency)
        | none => false))
      [{ payee := none, amount := some (mkRat 3 1), date := none, date_user := none,
         refnum := none, memo := none }] :=
  C7_currency_filter.2 { currency := some "EUR" }
    [{ cdtDbtInd := some (some "CRDT"), amt := some { text := some "5", ccy := some "USD" } },
     { cdtDbtInd := some (some "CRDT"), amt := some { text := some "3", ccy := some "EUR" } }]
    [{ payee := none, amount := some (mkRat 3 1), date := none, date_user := none,
       refnum := none, memo := none }]
    (by intro e2 he2; fin_cases he2 <;> exact ⟨by decide, by decide⟩)
    (by decide)

/-! ## Stage lemmas for the statement-property extractor -/

theorem truthy_some_of_ne (s : String) (h : s ≠ "") : truthy (some s) = true := by
  simp [truthy, h]

theorem resolve_currency_ok_of_truthy (st : Statement) (x : Option String)
    (h : truthy x = true) : resolve_currency st x = .ok { st with currency := x } := by
  rw [resolve_currency, if_pos h]

theorem resolve_currency_err (st : Statement) (x : Option String)
    (hx : truthy x = false) (hc : st.currency = none) :
    resolve_currency st x = .error (.parseError 0 currencyErrMsg) := by
  rw [resolve_currency, if_neg (by simp [hx]), if_pos hc]

theorem resolve_currency_keep (st : Statement) (x : Option String)
    (hx : truthy x = false) (hc : st.currency ≠ none) :
    resolve_currency st x = .ok st := by
  rw [resolve_currency, if_neg (by simp [hx]), if_neg hc]

theorem resolve_currency_account_id (st st1 : Statement) (x : Option String)
    (h : resolve_currency st x = .ok st1) : st1.account_id = st.account_id := by
  rw [resolve_currency] at h
  by_cases ht : truthy x = true
  · rw [if_pos ht] at h
    injection h with h1
    rw [← h1]
  · rw [if_neg ht] at h
    by_cases hc : st.currency = none
    · rw [if_pos hc] at h
      simp at h
    · rw [if_neg hc] at h
      injection h with h1
      rw [← h1]

theorem resolve_currency_currency (st st1 : Statement) (x : Option String)
    (h : resolve_currency st x = .ok st1) (ht : truthy x = true) : st1.currency = x := by
  rw [resolve_currency_ok_of_truthy st x ht] at h
  injection h with h1
  rw [← h1]

theorem resolve_account_id_ok_of_truthy (st : Statement) (x : Option String)
    (h : truthy x = true) : resolve_account_id st x = .ok { st with account_id := x } := by
  rw [resolve_account_id, if_pos h]

theorem resolve_account_id_err (st : Statement) (x : Option String)
    (hx : truthy x = false) (hc : st.account_id = none) :
    resolve_account_id st x = .error (.parseError 0 ibanErrMsg) := by
  rw [resolve_account_id, if_neg (by simp [hx]), if_pos hc]

theorem resolve_account_id_keep (st st2 : Statement) (x : Option String)
    (hx : truthy x = false) (h : resolve_account_id st x = .ok st2) : st2 = st := by
  rw [resolve_account_id, if_neg (by simp [hx])] at h
  by_cases hc : st.account_id = none
  · rw [if_pos hc] at h
    simp at h
  · rw [if_neg hc] at h
    injection h with h1
    exact h1.symm

theorem resolve_account_id_currency (st st2 : Statement) (x : Option String)
    (h : resolve_account_id st x = .ok st2) : st2.currency = st.currency := by
  rw [resolve_account_id] at h
  by_cases ht : truthy x = true
  · rw [if_pos ht] at h
    injection h with h1
    rw [← h1]
  · rw [if_neg ht] at h
    by_cases hc : st.account_id = none
    · rw [if_pos hc] at h
      simp at h
    · rw [if_neg hc] at h
      injection h with h1
      rw [← h1]

theorem dict_getitem_ok {α : Type} (m : List (Option String × α)) (k : String) (v : α)
    (h : dict_getitem m k = .ok v) : dget k m = some v := by
  rw [dict_getitem] at h
  cases hd : dget k m with
  | none => rw [hd] at h; simp at h
  | some w =>
    rw [hd] at h
    injection h with h1
    rw [h1]

theorem dict_getitem_err {α : Type} (m : List (Option String × α)) (k : String)
    (h : dget k m = none) : dict_getitem m k = .error (.keyError k) := by
  rw [dict_getitem, h]

theorem parse_err_of_psp (c i : Option String) (doc : Doc) (ver : CamtVersion) (er : Err)
    (hv : recognize_version doc.ns = .ok ver)
    (hp : parse_statement_properties ver doc (initStatement c i) = .error er) :
    parse c i doc = .error er := by
  simp [parse, hv, hp]

theorem parse_ok_inv (c i : Option String) (doc : Doc) (st : Statement)
    (h : parse c i doc = .ok st) :
    ∃ ver st1, recognize_version doc.ns = .ok ver ∧
      parse_statement_properties ver doc (initStatement c i) = .ok st1 ∧
      st.currency = st1.currency ∧ st.account_id = st1.account_id ∧
      st.start_balance = st1.start_balance ∧ st.start_date = st1.start_date ∧
      st.end_balance = st1.end_balance ∧ st.end_date = st1.end_date := by
  rw [parse] at h
  cases hv : recognize_version doc.ns with
  | error e => simp only [hv] at h; exact Except.noConfusion h
  | ok ver =>
    simp only [hv] at h
    cases hp : parse_statement_properties ver doc (initStatement c i) with
    | error e => simp only [hp] at h; exact Except.noConfusion h
    | ok st1 =>
      simp only [hp] at h
      cases hg : get_statement_el ver doc with
      | error e => simp only [hg] at h; exact Except.noConfusion h
      | ok stmt =>
        simp only [hg] at h
        cases hl : parse_lines st1 stmt.entries with
        | error e => simp only [hl] at h; exact Except.noConfusion h
        | ok ls =>
          simp only [hl] at h
          injection h with h1
          subst h1
          exact ⟨ver, st1, rfl, hp, rfl, rfl, rfl, rfl, rfl, rfl⟩

theorem psp_ok_inv (ver : CamtVersion) (doc : Doc) (st st3 : Statement) (stmt : StmtEl)
    (hget : get_statement_el ver doc = .ok stmt)
    (h : parse_statement_properties ver doc st = .ok st3) :
    ∃ st1 st2 maps,
      resolve_currency st (acctCurrencyOf stmt) = .ok st1 ∧
      resolve_account_id st1 (acctIbanOf stmt) = .ok st2 ∧
      collect_bals st2.currency ([], []) stmt.bals = .ok maps ∧
      maps.1.isEmpty = false ∧
      st3.currency = st2.currency ∧
      st3.bank_id = nodeText (bnkOf stmt) ∧
      st3.account_id = (match acctIbanOf stmt with
        | some v => some v
        | none => st2.account_id) ∧
      st3.start_balance = (match dget "OPBD" maps.1 with
        | some v => some v
        | none => dget "PRCD" maps.1) ∧
      st3.start_date = (match dget "OPBD" maps.2 with
        | some v => v
        | none =>
          match dget "PRCD" maps.2 with
          | some v => v
          | none => none) ∧
      (∃ eb, dget "CLBD" maps.1 = some eb ∧ st3.end_balance = some eb) ∧
      (∃ ed, dget "CLBD" maps.2 = some ed ∧ st3.end_date = ed) := by
  simp only [parse_statement_properties, hget] at h
  cases hrc : resolve_currency st (acctCurrencyOf stmt) with
  | error e => simp only [hrc] at h; exact Except.noConfusion h
  | ok st1 =>
    simp only [hrc] at h
    cases hri : resolve_account_id st1 (acctIbanOf stmt) with
    | error e => simp only [hri] at h; exact Except.noConfusion h
    | ok st2 =>
      simp only [hri] at h
      cases hcb : collect_bals st2.currency ([], []) stmt.bals with
      | error e => simp only [hcb] at h; exact Except.noConfusion h
      | ok maps =>
        simp only [hcb] at h
        cases hemp : maps.1.isEmpty with
        | true => simp only [hemp, if_true] at h; exact Except.noConfusion h
        | false =>
          simp only [hemp, Bool.false_eq_true, if_false] at h
          cases hg1 : dict_getitem maps.1 "CLBD" with
          | error e => simp only [hg1] at h; exact Except.noConfusion h
          | ok eb =>
            simp only [hg1] at h
            cases hg2 : dict_getitem maps.2 "CLBD" with
            | error e => simp only [hg2] at h; exact Except.noConfusion h
            | ok ed =>
              simp only [hg2] at h
              injection h with h1
              subst h1
              exact ⟨st1, st2, maps, rfl, hri, hcb, hemp, rfl, rfl, rfl, rfl, rfl,
                ⟨eb, dict_getitem_ok maps.1 "CLBD" eb hg1, rfl⟩,
                ⟨ed, dict_getitem_ok maps.2 "CLBD" ed hg2, rfl⟩⟩

theorem psp_err_of_rc (ver : CamtVersion) (doc : Doc) (st : Statement) (stmt : StmtEl) (er : Err)
    (hget : get_statement_el ver doc = .ok stmt)
    (hrc : resolve_currency st (acctCurrencyOf stmt) = .error er) :
    parse_statement_properties ver doc st = .error er := by
  simp [parse_statement_properties, hget, hrc]

theorem psp_err_of_ri (ver : CamtVersion) (doc : Doc) (st st1 : Statement) (stmt : StmtEl) (er : Err)
    (hget : get_statement_el ver doc = .ok stmt)
    (hrc : resolve_currency st (acctCurrencyOf stmt) = .ok st1)
    (hri : resolve_account_id st1 (acctIbanOf stmt) = .error er) :
    parse_statement_properties ver doc st = .error er := by
  simp [parse_statement_properties, hget, hrc, hri]

theorem psp_err_empty (ver : CamtVersion) (doc : Doc) (st st1 st2 : Statement) (stmt : StmtEl)
    (maps : List (Option String × Rat) × List (Option String × Option DateTime))
    (hget : get_statement_el ver doc = .ok stmt)
    (hrc : resolve_currency st (acctCurrencyOf stmt) = .ok st1)
    (hri : resolve_account_id st1 (acctIbanOf stmt) = .ok st2)
    (hcb : collect_bals st2.currency ([], []) stmt.bals = .ok maps)
    (hemp : maps.1.isEmpty = true) :
    parse_statement_properties ver doc st = .error (.parseError 0 (noBalanceMsg st2.currency)) := by
  simp [parse_statement_properties, hget, hrc, hri, hcb, hemp]

theorem psp_err_no_clbd (ver : CamtVersion) (doc : Doc) (st st1 st2 : Statement) (stmt : StmtEl)
    (maps : List (Option String × Rat) × List (Option String × Option DateTime))
    (hget : get_statement_el ver doc = .ok stmt)
    (hrc : resolve_currency st (acctCurrencyOf stmt) = .ok st1)
    (hri : resolve_account_id st1 (acctIbanOf stmt) = .ok st2)
    (hcb : collect_bals st2.currency ([], []) stmt.bals = .ok maps)
    (hemp : maps.1.isEmpty = false)
    (hno : dget "CLBD" maps.1 = none) :
    parse_statement_properties ver doc st = .error (.keyError "CLBD") := by
  simp [parse_statement_properties, hget, hrc, hri, hcb, hemp,
    dict_getitem_err maps.1 "CLBD" hno]

/-! ## Currency resolution (statement level) -/

/-- C4: a present (non-empty) account-level currency value is stamped on the
statement, overwriting any caller default; an absent one with no configured
default raises the parse error instructing the caller to configure a
currency; an absent one with default "XXX" lets parsing succeed with
`statement.currency = "XXX"`. -/
theorem C4_currency_resolution :
    (∀ (c i : Option String) (doc : Doc) (ver : CamtVersion) (stmt : StmtEl) (cval : String)
       (st : Statement),
       recognize_version doc.ns = .ok ver → get_statement_el ver doc = .ok stmt →
       acctCurrencyOf stmt = some cval → cval ≠ "" →
       parse c i doc = .ok st → st.currency = some cval) ∧
    (∀ (i : Option String) (doc : Doc) (ver : CamtVersion) (stmt : StmtEl),
       recognize_version doc.ns = .ok ver → get_statement_el ver doc = .ok stmt →
       truthy (acctCurrencyOf stmt) = false →
       parse none i doc = .error (.parseError 0 currencyErrMsg)) ∧
    (∀ (i : Option String) (doc : Doc) (ver : CamtVersion) (stmt : StmtEl) (st : Statement),
       recognize_version doc.ns = .ok ver → get_statement_el ver doc = .ok stmt →
       truthy (acctCurrencyOf stmt) = false →
       parse (some "XXX") i doc = .ok st → st.currency = some "XXX") := by
  refine ⟨?_, ?_, ?_⟩
  · intro c i doc ver stmt cval st hv hget hcv hne hok
    obtain ⟨ver2, st1, hv2, hp, hcur, _⟩ := parse_ok_inv c i doc st hok
    have hvv : ver = ver2 := by
      have h12 := hv.symm.trans hv2
      injection h12
    subst hvv
    obtain ⟨stA, stB, maps, hrc, hri, _, _, hcur2, _⟩ :=
      psp_ok_inv ver doc (initStatement c i) st1 stmt hget hp
    have htr : truthy (acctCurrencyOf stmt) = true := by
      rw [hcv]
      exact truthy_some_of_ne cval hne
    have h1 : stA.currency = acctCurrencyOf stmt :=
      resolve_currency_currency _ _ _ hrc htr
    have h2 : stB.currency = stA.currency := resolve_account_id_currency _ _ _ hri
    rw [hcur, hcur2, h2, h1, hcv]
  · intro i doc ver stmt hv hget hfalse
    have hrc : resolve_currency (initStatement none i) (acctCurrencyOf stmt)
        = .error (.parseError 0 currencyErrMsg) :=
      resolve_currency_err _ _ hfalse rfl
    exact parse_err_of_psp none i doc ver _ hv (psp_err_of_rc ver doc _ stmt _ hget hrc)
  · intro i doc ver stmt st hv hget hfalse hok
    obtain ⟨ver2, st1, hv2, hp, hcur, _⟩ := parse_ok_inv (some "XXX") i doc st hok
    have hvv : ver = ver2 := by
      have h12 := hv.symm.trans hv2
      injection h12
    subst hvv
    obtain ⟨stA, stB, maps, hrc, hri, _, _, hcur2, _⟩ :=
      psp_ok_inv ver doc (initStatement (some "XXX") i) st1 stmt hget hp
    have hkeep : resolve_currency (initStatement (some "XXX") i) (acctCurrencyOf stmt)
        = .ok (initStatement (some "XXX") i) :=
      resolve_currency_keep _ _ hfalse (by simp [initStatement])
    have hA : stA = initStatement (some "XXX") i := by
      have h12 := hkeep.symm.trans hrc
      injection h12 with h13
      exact h13.symm
    have h2 : stB.currency = stA.currency := resolve_account_id_currency _ _ _ hri
    rw [hcur, hcur2, h2, hA]
    rfl

/-- A one-balance statement element with document currency EUR. -/
def stmtC4a : StmtEl :=
  { ccy := some (some "EUR"),
    bals := [{ cd := some (some "CLBD"),
               amt := some { text := some "1", ccy := some "EUR" }, dt := none }],
    ibanAcct := some (some "LT1") }

/-- The same element without any document currency. -/
def stmtC4b : StmtEl :=
  { ccy := none,
    bals := [{ cd := some (some "CLBD"),
               amt := some { text := some "1", ccy := some "EUR" }, dt := none }],
    ibanAcct := some (some "LT1") }

/-- No document currency; the balance is denominated in XXX. -/
def stmtC4c : StmtEl :=
  { ccy := none,
    bals := [{ cd := some (some "CLBD"),
               amt := some { text := some "1", ccy := some "XXX" }, dt := none }],
    ibanAcct := some (some "LT1") }

/-- A camt.053 document around `stmtC4a`. -/
def docC4a : Doc :=
  { ns := "urn:iso:std:iso:20022:tech:xsd:camt.053.001.02", bkToCstmrStmt := some stmtC4a }

/-- A camt.053 document around `stmtC4b`. -/
def docC4b : Doc :=
  { ns := "urn:iso:std:iso:20022:tech:xsd:camt.053.001.02", bkToCstmrStmt := some stmtC4b }

/-- A camt.053 document around `stmtC4c`. -/
def docC4c : Doc :=
  { ns := "urn:iso:std:iso:20022:tech:xsd:camt.053.001.02", bkToCstmrStmt := some stmtC4c }

/-- The statement produced for `docC4a` (and, with currency XXX, `docC4c`). -/
def stC4a : Statement :=
  { currency := some "EUR", bank_id := none, account_id := some "LT1",
    start_balance := none, start_date := none, end_balance := some (mkRat 1 1),
    end_date := none, lines := [] }

/-- The statement produced for `docC4c` under configured currency XXX. -/
def stC4c : Statement :=
  { currency := some "XXX", bank_id := none, account_id := some "LT1",
    start_balance := none, start_date := none, end_balance := some (mkRat 1 1),
    end_date := none, lines := [] }

/-- Witness for C4: concrete documents exercising all three branches
(document currency EUR overrides default GBP; no currency and no default is
a parse error; no currency with default XXX succeeds and stamps XXX). -/
theorem C4_currency_resolution_witness :
    stC4a.currency = some "EUR" ∧
    parse none none docC4b = .error (.parseError 0 currencyErrMsg) ∧
    stC4c.currency = some "XXX" :=
  ⟨C4_currency_resolution.1 (some "GBP") none docC4a .CAMT053 stmtC4a "EUR" stC4a
      (by decide) rfl rfl (by decide) (by decide),
   C4_currency_resolution.2.1 none docC4b .CAMT053 stmtC4b (by decide) rfl (by decide),
   C4_currency_resolution.2.2 none docC4c .CAMT053 stmtC4c stC4c
      (by decide) rfl (by decide) (by decide)⟩

/-! ## Account-id resolution (statement level) -/

/-- A statement element with currency EUR, one EUR closing balance, and no
IBAN on either the primary or the related-party path. -/
def stmtC1x : StmtEl :=
  { ccy := some (some "EUR"),
    bals := [{ cd := some (some "CLBD"),
               amt := some { text := some "1", ccy := some "EUR" }, dt := none }],
    ibanAcct := none, ibanRltd := none }

/-- A camt.053 document around `stmtC1x`. -/
def docC1x : Doc :=
  { ns := "urn:iso:std:iso:20022:tech:xsd:camt.053.001.02", bkToCstmrStmt := some stmtC1x }

/-- `stmtC1x`, but carrying the document IBAN "LT1". -/
def stmtC1b : StmtEl := { stmtC1x with ibanAcct := some (some "LT1") }

/-- A camt.053 document around `stmtC1b`. -/
def docC1b : Doc :=
  { ns := "urn:iso:std:iso:20022:tech:xsd:camt.053.001.02", bkToCstmrStmt := some stmtC1b }

/-- The statement produced for `docC1b` under configured iban "CFG". -/
def stC1b : Statement :=
  { currency := some "EUR", bank_id := none, account_id := some "LT1",
    start_balance := none, start_date := none, end_balance := some (mkRat 1 1),
    end_date := none, lines := [] }

/-- The statement produced for `docC1x` under configured iban "CFG". -/
def stC1c : Statement :=
  { currency := some "EUR", bank_id := none, account_id := some "CFG",
    start_balance := none, start_date := none, end_balance := some (mkRat 1 1),
    end_date := none, lines := [] }

/-- C1 counterexample: a document in which neither IBAN path yields a value,
parsed with no configured iban default: `parse` raises the
no-iban `ParseError` instead of keeping `account_id` null. -/
theorem C1_counterexample :
    acctIbanOf stmtC1x = none ∧
    parse none none docC1x = .error (.parseError 0 ibanErrMsg) :=
  ⟨rfl, by decide⟩

/-- C1 (amended): when neither the primary nor the alternate path yields an
IBAN and no caller-supplied iban default was configured, `parse` raises the
parse error instructing the caller to configure an iban (it does not keep
`account_id` null); when a document IBAN is present it overrides the output;
otherwise a previously-set caller-supplied default is preserved (the
extractor never overwrites a caller-supplied id with null). -/
theorem C1_account_id_resolution :
    (∀ (c : Option String) (doc : Doc) (ver : CamtVersion) (stmt : StmtEl) (st1 : Statement),
       recognize_version doc.ns = .ok ver → get_statement_el ver doc = .ok stmt →
       resolve_currency (initStatement c none) (acctCurrencyOf stmt) = .ok st1 →
       truthy (acctIbanOf stmt) = false →
       parse c none doc = .error (.parseError 0 ibanErrMsg)) ∧
    (∀ (c i : Option String) (doc : Doc) (ver : CamtVersion) (stmt : StmtEl) (s : String)
       (st : Statement),
       recognize_version doc.ns = .ok ver → get_statement_el ver doc = .ok stmt →
       acctIbanOf stmt = some s →
       parse c i doc = .ok st → st.account_id = some s) ∧
    (∀ (c i : Option String) (doc : Doc) (ver : CamtVersion) (stmt : StmtEl) (st : Statement),
       recognize_version doc.ns = .ok ver → get_statement_el ver doc = .ok stmt →
       acctIbanOf stmt = none →
       parse c i doc = .ok st → st.account_id = i) := by
  refine ⟨?_, ?_, ?_⟩
  · intro c doc ver stmt st1 hv hget hrc hfalse
    have hacc : st1.account_id = none := by
      rw [resolve_currency_account_id _ _ _ hrc]
      rfl
    have hri := resolve_account_id_err st1 (acctIbanOf stmt) hfalse hacc
    exact parse_err_of_psp c none doc ver _ hv
      (psp_err_of_ri ver doc _ st1 stmt _ hget hrc hri)
  · intro c i doc ver stmt s st hv hget hs hok
    obtain ⟨ver2, st1, hv2, hp, _, haid, _⟩ := parse_ok_inv c i doc st hok
    have hvv : ver = ver2 := by
      have h12 := hv.symm.trans hv2
      injection h12
    subst hvv
    obtain ⟨stA, stB, maps, _, _, _, _, _, _, haid2, _⟩ :=
      psp_ok_inv ver doc (initStatement c i) st1 stmt hget hp
    simp only [hs] at haid2
    rw [haid, haid2]
  · intro c i doc ver stmt st hv hget hiban hok
    obtain ⟨ver2, st1, hv2, hp, _, haid, _⟩ := parse_ok_inv c i doc st hok
    have hvv : ver = ver2 := by
      have h12 := hv.symm.trans hv2
      injection h12
    subst hvv
    obtain ⟨stA, stB, maps, hrc, hri, _, _, _, _, haid2, _⟩ :=
      psp_ok_inv ver doc (initStatement c i) st1 stmt hget hp
    simp only [hiban] at haid2
    have hx : truthy (acctIbanOf stmt) = false := by
      rw [hiban]
      rfl
    have hBA : stB = stA := resolve_account_id_keep stA stB _ hx hri
    have hA : stA.account_id = i := by
      rw [resolve_currency_account_id _ _ _ hrc]
      rfl
    rw [haid, haid2, hBA, hA]

/-- Witness for C1: on `docC1x` (no IBAN anywhere) with no default, `parse`
raises the no-iban error; a document IBAN "LT1" overrides the configured
default "CFG"; with no document IBAN the configured default "CFG" is kept. -/
theorem C1_account_id_resolution_witness :
    parse none none docC1x = .error (.parseError 0 ibanErrMsg) ∧
    stC1b.account_id = some "LT1" ∧
    stC1c.account_id = some "CFG" :=
  ⟨C1_account_id_resolution.1 none docC1x .CAMT053 stmtC1x { currency := some "EUR" }
      (by decide) rfl (by decide) rfl,
   C1_account_id_resolution.2.1 none (some "CFG") docC1b .CAMT053 stmtC1b "LT1" stC1b
      (by decide) rfl rfl (by decide),
   C1_account_id_resolution.2.2 none (some "CFG") docC1x .CAMT053 stmtC1x stC1c
      (by decide) rfl rfl (by decide)⟩

/-! ## Balance selection (statement level) -/

/-- A statement element with OPBD and CLBD balances in EUR. -/
def stmtC5a : StmtEl :=
  { ccy := some (some "EUR"),
    bals := [{ cd := some (some "OPBD"),
               amt := some { text := some "1", ccy := some "EUR" }, dt := none },
             { cd := some (some "CLBD"),
               amt := some { text := some "2", ccy := some "EUR" }, dt := none }],
    ibanAcct := some (some "LT1") }

/-- A camt.053 document around `stmtC5a`. -/
def docC5a : Doc :=
  { ns := "urn:iso:std:iso:20022:tech:xsd:camt.053.001.02", bkToCstmrStmt := some stmtC5a }

/-- The statement produced for `docC5a`. -/
def stC5a : Statement :=
  { currency := some "EUR", bank_id := none, account_id := some "LT1",
    start_balance := some (mkRat 1 1), start_date := none,
    end_balance := some (mkRat 2 1), end_date := none, lines := [] }

/-- The balance dictionaries collected for `docC5a` (newest insert first). -/
def mapsC5a : List (Option String × Rat) × List (Option String × Option DateTime) :=
  ([(some "CLBD", mkRat 2 1), (some "OPBD", mkRat 1 1)],
   [(some "CLBD", none), (some "OPBD", none)])

/-- `stmtC5a` with the CLBD balance removed. -/
def stmtC5b : StmtEl :=
  { ccy := some (some "EUR"),
    bals := [{ cd := some (some "OPBD"),
               amt := some { text := some "1", ccy := some "EUR" }, dt := none }],
    ibanAcct := some (some "LT1") }

/-- A camt.053 document around `stmtC5b`. -/
def docC5b : Doc :=
  { ns := "urn:iso:std:iso:20022:tech:xsd:camt.053.001.02", bkToCstmrStmt := some stmtC5b }

/-- The balance dictionaries collected for `docC5b`. -/
def mapsC5b : List (Option String × Rat) × List (Option String × Option DateTime) :=
  ([(some "OPBD", mkRat 1 1)], [(some "OPBD", none)])

/-- C5: on success, `start_balance`/`start_date` come from the
currency-filtered balance dictionaries at code "OPBD" with fallback "PRCD",
and `end_balance`/`end_date` from code "CLBD"; when the filtered dictionaries
lack "CLBD", `parse` propagates the `KeyError` for key "CLBD" to the caller
as a fatal error. -/
theorem C5_balance_selection :
    (∀ (c i : Option String) (doc : Doc) (ver : CamtVersion) (stmt : StmtEl)
       (st1 st2 : Statement)
       (maps : List (Option String × Rat) × List (Option String × Option DateTime))
       (st : Statement),
       recognize_version doc.ns = .ok ver → get_statement_el ver doc = .ok stmt →
       resolve_currency (initStatement c i) (acctCurrencyOf stmt) = .ok st1 →
       resolve_account_id st1 (acctIbanOf stmt) = .ok st2 →
       collect_bals st2.currency ([], []) stmt.bals = .ok maps →
       parse c i doc = .ok st →
       st.start_balance = (match dget "OPBD" maps.1 with
         | some v => some v
         | none => dget "PRCD" maps.1) ∧
       st.start_date = (match dget "OPBD" maps.2 with
         | some v => v
         | none =>
           match dget "PRCD" maps.2 with
           | some v => v
           | none => none) ∧
       (∃ eb, dget "CLBD" maps.1 = some eb ∧ st.end_balance = some eb) ∧
       (∃ ed, dget "CLBD" maps.2 = some ed ∧ st.end_date = ed)) ∧
    (∀ (c i : Option String) (doc : Doc) (ver : CamtVersion) (stmt : StmtEl)
       (st1 st2 : Statement)
       (maps : List (Option String × Rat) × List (Option String × Option DateTime)),
       recognize_version doc.ns = .ok ver → get_statement_el ver doc = .ok stmt →
       resolve_currency (initStatement c i) (acctCurrencyOf stmt) = .ok st1 →
       resolve_account_id st1 (acctIbanOf stmt) = .ok st2 →
       collect_bals st2.currency ([], []) stmt.bals = .ok maps →
       maps.1.isEmpty = false →
       dget "CLBD" maps.1 = none →
       parse c i doc = .error (.keyError "CLBD")) := by
  constructor
  · intro c i doc ver stmt st1 st2 maps st hv hget hrc hri hcb hok
    obtain ⟨ver2, stp, hv2, hp, _, _, hsb, hsd, heb, hed⟩ := parse_ok_inv c i doc st hok
    have hvv : ver = ver2 := by
      have h12 := hv.symm.trans hv2
      injection h12
    subst hvv
    obtain ⟨stA, stB, mapsB, hrcB, hriB, hcbB, _, _, _, _, hsbB, hsdB, hebB, hedB⟩ :=
      psp_ok_inv ver doc (initStatement c i) stp stmt hget hp
    have hA : st1 = stA := by
      have h12 := hrc.symm.trans hrcB
      injection h12
    subst hA
    have hB : st2 = stB := by
      have h12 := hri.symm.trans hriB
      injection h12
    subst hB
    have hM : maps = mapsB := by
      have h12 := hcb.symm.trans hcbB
      injection h12
    subst hM
    obtain ⟨eb, hebm, hebv⟩ := hebB
    obtain ⟨ed, hedm, hedv⟩ := hedB
    exact ⟨by rw [hsb, hsbB], by rw [hsd, hsdB],
      ⟨eb, hebm, by rw [heb, hebv]⟩, ⟨ed, hedm, by rw [hed, hedv]⟩⟩
  · intro c i doc ver stmt st1 st2 maps hv hget hrc hri hcb hemp hno
    exact parse_err_of_psp c i doc ver _ hv
      (psp_err_no_clbd ver doc _ st1 st2 stmt maps hget hrc hri hcb hemp hno)

/-- Witness for C5: `docC5a` resolves start from OPBD and end from CLBD;
`docC5b`, which lacks a CLBD balance, makes `parse` fail with the CLBD
`KeyError`. -/
theorem C5_balance_selection_witness :
    (stC5a.start_balance = (match dget "OPBD" mapsC5a.1 with
       | some v => some v
       | none => dget "PRCD" mapsC5a.1) ∧
     stC5a.start_date = (match dget "OPBD" mapsC5a.2 with
       | some v => v
       | none =>
         match dget "PRCD" mapsC5a.2 with
         | some v => v
         | none => none) ∧
     (∃ eb, dget "CLBD" mapsC5a.1 = some eb ∧ stC5a.end_balance = some eb) ∧
     (∃ ed, dget "CLBD" mapsC5a.2 = some ed ∧ stC5a.end_date = ed)) ∧
    parse none none docC5b = .error (.keyError "CLBD") :=
  ⟨C5_balance_selection.1 none none docC5a .CAMT053 stmtC5a
      { currency := some "EUR" } { currency := some "EUR", account_id := some "LT1" }
      mapsC5a stC5a (by decide) rfl (by decide) (by decide) (by decide) (by decide),
   C5_balance_selection.2 none none docC5b .CAMT053 stmtC5b
      { currency := some "EUR" } { currency := some "EUR", account_id := some "LT1" }
      mapsC5b (by decide) rfl (by decide) (by decide) (by decide) (by decide) (by decide)⟩

/-! ## Balance currency filtering -/

theorem collect_bals_all_mismatch (ccy : Option String)
    (acc : List (Option String × Rat) × List (Option String × Option DateTime))
    (bals : List BalanceEl)
    (hwf : ∀ b ∈ bals, b.cd ≠ none ∧ b.amt ≠ none)
    (hmis : ∀ b ∈ bals, ∀ a, b.amt = some a → a.ccy ≠ ccy) :
    collect_bals ccy acc bals = .ok acc := by
  induction bals with
  | nil => rfl
  | cons b rest ih =>
    obtain ⟨ct, hct⟩ := Option.ne_none_iff_exists'.mp (hwf b (List.mem_cons_self b rest)).1
    obtain ⟨a, ha⟩ := Option.ne_none_iff_exists'.mp (hwf b (List.mem_cons_self b rest)).2
    simp only [collect_bals, hct, ha]
    rw [if_pos (hmis b (List.mem_cons_self b rest) a ha)]
    exact ih (fun b2 h2 => hwf b2 (List.mem_cons_of_mem b h2))
      (fun b2 h2 => hmis b2 (List.mem_cons_of_mem b h2))

theorem collect_bals_filter (ccy : Option String)
    (acc : List (Option String × Rat) × List (Option String × Option DateTime))
    (bals : List BalanceEl)
    (hwf : ∀ b ∈ bals, b.cd ≠ none ∧ b.amt ≠ none) :
    collect_bals ccy acc (bals.filter (fun b =>
      match b.amt with
      | some a => decide (a.ccy = ccy)
      | none => false)) = collect_bals ccy acc bals := by
  induction bals generalizing acc with
  | nil => rfl
  | cons b rest ih =>
    obtain ⟨ct, hct⟩ := Option.ne_none_iff_exists'.mp (hwf b (List.mem_cons_self b rest)).1
    obtain ⟨a, ha⟩ := Option.ne_none_iff_exists'.mp (hwf b (List.mem_cons_self b rest)).2
    have hwfr : ∀ b2 ∈ rest, b2.cd ≠ none ∧ b2.amt ≠ none :=
      fun b2 h2 => hwf b2 (List.mem_cons_of_mem b h2)
    by_cases hcc : a.ccy = ccy
    · have hpred : (fun b => match b.amt with
          | some a => decide (a.ccy = ccy)
          | none => false) b = true := by
        simp [ha, hcc]
      rw [List.filter_cons, if_pos hpred]
      simp only [collect_bals, hct, ha, if_neg (fun hn : a.ccy ≠ ccy => hn hcc)]
      cases hq : parse_amount a with
      | error er => rfl
      | ok a2 =>
        cases hd : parse_date b.dt with
        | error er => rfl
        | ok d => exact ih ((ct, a2) :: acc.1, (ct, d) :: acc.2) hwfr
    · have hpred : (fun b => match b.amt with
          | some a => decide (a.ccy = ccy)
          | none => false) b = false := by
        simp [ha, hcc]
      rw [List.filter_cons, if_neg (by simp [hpred])]
      have hstep : collect_bals ccy acc (b :: rest) = collect_bals ccy acc rest := by
        simp only [collect_bals, hct, ha]
        rw [if_pos hcc]
      rw [hstep]
      exact ih acc hwfr

/-- A statement element whose only balance is denominated in USD. -/
def stmtC6a : StmtEl :=
  { ccy := some (some "EUR"),
    bals := [{ cd := some (some "CLBD"),
               amt := some { text := some "1", ccy := some "USD" }, dt := none }],
    ibanAcct := some (some "LT1") }

/-- A camt.053 document around `stmtC6a`. -/
def docC6a : Doc :=
  { ns := "urn:iso:std:iso:20022:tech:xsd:camt.053.001.02", bkToCstmrStmt := some stmtC6a }

/-- A statement element with one USD balance and one EUR closing balance. -/
def stmtC6b : StmtEl :=
  { ccy := some (some "EUR"),
    bals := [{ cd := some (some "OPBD"),
               amt := some { text := some "1", ccy := some "USD" }, dt := none },
             { cd := some (some "CLBD"),
               amt := some { text := some "2", ccy := some "EUR" }, dt := none }],
    ibanAcct := some (some "LT1") }

/-- C6: when every balance carries a currency attribute different from the
resolved statement currency, `parse` raises a parse error whose message
embeds the statement currency; and filtering out the mismatched balances
beforehand leaves the statement-property extraction unchanged, so such
balances never contribute to `start_balance`, `end_balance`, `start_date`,
or `end_date`. -/
theorem C6_balance_currency_filter :
    (∀ (c i : Option String) (doc : Doc) (ver : CamtVersion) (stmt : StmtEl)
       (st1 st2 : Statement) (ccyR : String),
       recognize_version doc.ns = .ok ver → get_statement_el ver doc = .ok stmt →
       resolve_currency (initStatement c i) (acctCurrencyOf stmt) = .ok st1 →
       resolve_account_id st1 (acctIbanOf stmt) = .ok st2 →
       st2.currency = some ccyR →
       (∀ b ∈ stmt.bals, b.cd ≠ none ∧ b.amt ≠ none) →
       (∀ b ∈ stmt.bals, ∀ a, b.amt = some a → a.ccy ≠ some ccyR) →
       parse c i doc = .error (.parseError 0 (noBalanceMsg (some ccyR))) ∧
       (∃ p q, noBalanceMsg (some ccyR) = p ++ ccyR ++ q)) ∧
    (∀ (ns : String) (rpt : Option StmtEl) (stmt : StmtEl) (st st1 st2 : Statement),
       resolve_currency st (acctCurrencyOf stmt) = .ok st1 →
       resolve_account_id st1 (acctIbanOf stmt) = .ok st2 →
       (∀ b ∈ stmt.bals, b.cd ≠ none ∧ b.amt ≠ none) →
       parse_statement_properties .CAMT053
           { ns := ns, bkToCstmrStmt := some stmt, bkToCstmrAcctRpt := rpt } st =
         parse_statement_properties .CAMT053
           { ns := ns,
             bkToCstmrStmt := some { stmt with bals := stmt.bals.filter (fun b =>
               match b.amt with
               | some a => decide (a.ccy = st2.currency)
               | none => false) },
             bkToCstmrAcctRpt := rpt } st) := by
  constructor
  · intro c i doc ver stmt st1 st2 ccyR hv hget hrc hri hc2 hwf hmis
    have hmis2 : ∀ b ∈ stmt.bals, ∀ a, b.amt = some a → a.ccy ≠ st2.currency := by
      intro b hb a hba
      rw [hc2]
      exact hmis b hb a hba
    have hcb : collect_bals st2.currency ([], []) stmt.bals = .ok ([], []) :=
      collect_bals_all_mismatch st2.currency ([], []) stmt.bals hwf hmis2
    have herr := psp_err_empty ver doc (initStatement c i) st1 st2 stmt ([], [])
      hget hrc hri hcb rfl
    rw [hc2] at herr
    refine ⟨parse_err_of_psp c i doc ver _ hv herr, ?_⟩
    refine ⟨"No statement balance found for currency " ++ squote,
      squote ++ ". Check currency of statement file.", ?_⟩
    simp [noBalanceMsg, fmtOptStr, String.append_assoc]
  · intro ns rpt stmt st st1 st2 hrc hri hwf
    have e1 : acctCurrencyOf { stmt with bals := stmt.bals.filter (fun b =>
        match b.amt with
        | some a => decide (a.ccy = st2.currency)
        | none => false) } = acctCurrencyOf stmt := rfl
    have e2 : acctIbanOf { stmt with bals := stmt.bals.filter (fun b =>
        match b.amt with
        | some a => decide (a.ccy = st2.currency)
        | none => false) } = acctIbanOf stmt := rfl
    have e3 : bnkOf { stmt with bals := stmt.bals.filter (fun b =>
        match b.amt with
        | some a => decide (a.ccy = st2.currency)
        | none => false) } = bnkOf stmt := rfl
    simp only [parse_statement_properties, get_statement_el, e1, e2, e3, hrc, hri,
      collect_bals_filter st2.currency ([], []) stmt.bals hwf]

/-- The resolved statement after currency/iban resolution for `stmtC6b`. -/
def stC6r : Statement := { currency := some "EUR", account_id := some "LT1" }

/-- A camt.053 document around `stmtC6b`. -/
def docC6b : Doc :=
  { ns := "urn:iso:std:iso:20022:tech:xsd:camt.053.001.02", bkToCstmrStmt := some stmtC6b }

/-- `docC6b` with the mismatched-currency balances filtered out. -/
def docC6bf : Doc :=
  { ns := "urn:iso:std:iso:20022:tech:xsd:camt.053.001.02",
    bkToCstmrStmt := some { stmtC6b with bals := stmtC6b.bals.filter (fun b =>
      match b.amt with
      | some a => decide (a.ccy = stC6r.currency)
      | none => false) } }

/-- Witness for C6: `docC6a` (only a USD balance, statement currency EUR)
fails with the message naming EUR; and dropping the USD balance from
`docC6b` leaves the extracted statement properties unchanged. -/
theorem C6_balance_currency_filter_witness :
    (parse none none docC6a = .error (.parseError 0 (noBalanceMsg (some "EUR"))) ∧
     (∃ p q, noBalanceMsg (some "EUR") = p ++ "EUR" ++ q)) ∧
    parse_statement_properties .CAMT053 docC6b (initStatement none none) =
      parse_statement_properties .CAMT053 docC6bf (initStatement none none) :=
  ⟨C6_balance_currency_filter.1 none none docC6a .CAMT053 stmtC6a
      { currency := some "EUR" } { currency := some "EUR", account_id := some "LT1" } "EUR"
      (by decide) rfl (by decide) (by decide) rfl
      (by decide)
      (by
        intro b hb a hba
        simp only [stmtC6a] at hb
        rw [List.mem_singleton] at hb
        subst hb
        injection hba with h2
        subst h2
        decide),
   C6_balance_currency_filter.2 "urn:iso:std:iso:20022:tech:xsd:camt.053.001.02" none
      stmtC6b (initStatement none none) { currency := some "EUR" } stC6r
      (by decide) (by decide) (by decide)⟩

end Iso20022
